import Mathlib

/-!
Verification of the article-generation pipeline in `src/app/api/generate/route.ts`
(the searcher / writer / editor agents and the `POST` orchestrator).

The route is a sequential pipeline over two network collaborators: a
generative-text API (three calls: query planning, drafting, editing) and a
search API (one call per planned query).  We embed it shallowly:

* each generative-text call is an oracle value of type `LLMCall`
  (it either throws, or returns an optional content string);
* each search call is an oracle `String → SearchCallResult`
  (throw / non-ok HTTP status / parsed body with optional `organic_results`);
* JavaScript truthiness on strings (`x || y`, `if (!x)`) is modelled by
  `jsTruthy` / `jsOr` on `Option String` (`none` = null/undefined);
* `String.prototype.trim` and `split("\n")` are modelled structurally on
  `String.data` (`jsTrim`, `jsSplitLines`) so that they compute by `decide`;
* exception flow is explicit in the `Except Thrown` monad: the per-query
  `try { ... } catch { continue }` of the searcher is `Except.tryCatch`,
  and the orchestrator's outer `try/catch` is the outermost `match`.

`POST` additionally returns the list of collaborator network calls it made,
so that "no collaborator is invoked" claims are statable.
-/

/-- A thrown JavaScript exception: either an `Error` carrying a message, or
some non-`Error` value (for which the orchestrator has no message). -/
inductive Thrown where
  | err (msg : String)
  | nonError
deriving DecidableEq, Repr

/-- `error instanceof Error ? error.message : "Internal server error"`
(route.ts lines 198-199). -/
def thrownMessage : Thrown → String
  | .err m => m
  | .nonError => "Internal server error"

/-- Outcome of one generative-text call (`openai.chat.completions.create`):
either it throws, or it returns `choices[0]?.message?.content`
(`none` models a missing/null content). -/
inductive LLMCall where
  | throw (e : Thrown)
  | ok (content : Option String)
deriving DecidableEq, Repr

/-- JavaScript truthiness of a nullable string: null/undefined and `""` are
falsy, every other string is truthy. -/
def jsTruthy (o : Option String) : Bool :=
  match o with
  | none => false
  | some s => s ≠ ""

/-- JavaScript `o || b` for a nullable string `o` and string `b`. -/
def jsOr (o : Option String) (b : String) : String :=
  match o with
  | none => b
  | some s => if s = "" then b else s

/-- JavaScript `String.prototype.trim`, modelled structurally on the
character list so that it computes by `decide`. -/
def jsTrim (s : String) : String :=
  ⟨((s.data.dropWhile Char.isWhitespace).reverse.dropWhile Char.isWhitespace).reverse⟩

/-- JavaScript `s.split("\n")`, modelled structurally on the character list
(single-character separator; empty segments are kept, as in JS). -/
def jsSplitLines (s : String) : List String :=
  (List.splitOn '\n' s.data).map List.asString

/-- `process.env.SERPAPI_API_KEY || ""` (route.ts lines 10-12):
an absent search credential is replaced by the empty string. -/
def getSerpApiKey (env : Option String) : String :=
  jsOr env ""

/-- One search result record from the search API's `organic_results`; each
field is optional (`none` models an absent/null field; the code treats the
empty string the same way, via truthiness). -/
structure SearchResult where
  title : Option String
  snippet : Option String
  link : Option String
deriving DecidableEq, Repr

/-- Outcome of one search-API call (`fetch` on serpapi.com, route.ts lines
54-59): the fetch or `res.json()` throws (timeout, network error, malformed
body), or the HTTP status is non-ok, or a parsed body whose
`organic_results` field may be absent. -/
inductive SearchCallResult where
  | throw (e : Thrown)
  | httpError
  | ok (organicResults : Option (List SearchResult))

/-- JavaScript `Array.prototype.join("\n")`. -/
def joinLines : List String → String
  | [] => ""
  | [x] => x
  | x :: rest => x ++ "\n" ++ joinLines rest

/-- The composite snippet built from one search result (route.ts lines
62-69): `[title || "", snippet || "", link ? "Source: " + link : ""]`,
filtered by truthiness, joined with newlines; `none` when the join is empty
(`if (snippet) allSnippets.push(snippet)`). -/
def resultSnippet (r : SearchResult) : Option String :=
  let parts := [jsOr r.title "", jsOr r.snippet "",
    if jsTruthy r.link then "Source: " ++ jsOr r.link "" else ""]
  let s := joinLines (parts.filter (fun p => p ≠ ""))
  if s = "" then none else some s

/-- Snippets extracted from one query's results (route.ts line 61):
`results.slice(0, 3)`, then per-result snippet building, dropping results
whose composite snippet is empty. -/
def extractSnippets (results : List SearchResult) : List String :=
  (results.take 3).filterMap resultSnippet

/-- The body of one loop iteration of the searcher before the `catch`
(route.ts lines 48-70): a thrown fetch/parse error propagates; a non-ok
status contributes nothing (`continue`); otherwise the snippets of the
first 3 results (`data.organic_results || []`). -/
def fetchQuery (beh : String → SearchCallResult) (q : String) :
    Except Thrown (List String) :=
  match beh q with
  | .throw e => .error e
  | .httpError => .ok []
  | .ok orl => .ok (extractSnippets (orl.getD []))

/-- The searcher's `for (const query of queries)` loop (route.ts lines
46-75), accumulating into `allSnippets`; each iteration's body is wrapped
in `try { ... } catch { continue }` (`Except.tryCatch`). -/
def searchLoop (beh : String → SearchCallResult) (acc : List String) :
    List String → Except Thrown (List String)
  | [] => .ok acc
  | q :: rest =>
    match Except.tryCatch (fetchQuery beh q) (fun _ => .ok []) with
    | .error e => .error e
    | .ok snips => searchLoop beh (acc ++ snips) rest

/-- The synthetic fallback snippet (route.ts lines 78-80). -/
def noResultsSnippet (topic : String) : String :=
  "No search results were found. Write the article based on your general knowledge of: "
    ++ topic

/-- The retrieval half of `searcherAgent` (route.ts lines 44-83): run the
search loop over the planned queries, then substitute the synthetic snippet
if the accumulated list is empty. -/
def retrieverAgent (beh : String → SearchCallResult) (queries : List String)
    (topic : String) : Except Thrown (List String) :=
  match searchLoop beh [] queries with
  | .error e => .error e
  | .ok allSnippets =>
    if allSnippets.length = 0 then .ok [noResultsSnippet topic]
    else .ok allSnippets

/-- The query-planning half of `searcherAgent` (route.ts lines 36-41):
`queriesText = content || topic`, split on newlines, trim, drop empties,
keep the first 3. -/
def planQueries (content : Option String) (topic : String) : List String :=
  (((jsSplitLines (jsOr content topic)).map jsTrim).filter
    (fun q => q ≠ "")).take 3

/-- `searcherAgent` (route.ts lines 16-84): the planning generative call
(whose exception propagates uncaught), then retrieval over the planned
queries. -/
def searcherAgent (plan : LLMCall) (beh : String → SearchCallResult)
    (topic : String) : Except Thrown (List String) :=
  match plan with
  | .throw e => .error e
  | .ok content => retrieverAgent beh (planQueries content topic) topic

/-- `writerAgent`'s result (route.ts lines 88-121): the drafting call's
exception propagates; otherwise `content || ""`. -/
def writerAgent (write : LLMCall) : Except Thrown String :=
  match write with
  | .throw e => .error e
  | .ok content => .ok (jsOr content "")

/-- `editorAgent`'s result (route.ts lines 125-155): the editing call's
exception propagates; otherwise `content || draft` (identity fallback). -/
def editorAgent (draft : String) (edit : LLMCall) : Except Thrown String :=
  match edit with
  | .throw e => .error e
  | .ok content => .ok (jsOr content draft)

/-- The `topic` field of the parsed request body: absent, a string, or a
non-string value (of which only its truthiness matters to validation). -/
inductive TopicField where
  | absent
  | str (s : String)
  | nonString (truthy : Bool)
deriving DecidableEq, Repr

/-- The validation test of route.ts line 164:
`!topic || typeof topic !== "string" || topic.trim().length === 0`.
Returns the raw topic string exactly when validation passes. -/
def validTopic : TopicField → Option String
  | .str s => if jsTrim s = "" then none else some s
  | _ => none

/-- The JSON body of a response: Next.js serialises exactly the fields of
the object literal, so each field is optional. -/
structure RespBody where
  article : Option String
  error : Option String
deriving DecidableEq, Repr

/-- A response: JSON body plus HTTP status (`NextResponse.json` defaults to
status 200). -/
structure Response where
  body : RespBody
  status : Nat
deriving DecidableEq, Repr

/-- `NextResponse.json({ error: msg }, { status })`. -/
def errorResponse (msg : String) (status : Nat) : Response :=
  ⟨⟨none, some msg⟩, status⟩

/-- `NextResponse.json({ article })`. -/
def okResponse (article : String) : Response :=
  ⟨⟨some article, none⟩, 200⟩

/-- A collaborator network call made while handling one request. -/
inductive AgentCall where
  | plannerCall
  | searchCall (q : String)
  | writerCall
  | editorCall
deriving DecidableEq, Repr

/-- The `POST` orchestrator (route.ts lines 159-203).

Inputs: the outcome of `request.json()` plus the destructuring of `topic`
(`.error` = the body was not valid JSON and parsing threw, or the parsed
body was `null` and destructuring threw), the `OPENAI_API_KEY` environment
variable, and the
oracles for the three generative calls and the search calls.

Output: the response, paired with the list of collaborator network calls
made, in order.  The outermost `match` on `body` and the `.error` branches
of each agent are the single outer `try/catch` of the source: every thrown
exception reaches it and is mapped through `thrownMessage`. -/
def POST (body : Except Thrown TopicField) (openaiKey : Option String)
    (plan : LLMCall) (beh : String → SearchCallResult)
    (write : LLMCall) (edit : LLMCall) : Response × List AgentCall :=
  match body with
  | .error e => (errorResponse (thrownMessage e) 500, [])
  | .ok tf =>
    match validTopic tf with
    | none => (errorResponse "A valid topic is required." 400, [])
    | some topicRaw =>
      if jsTruthy openaiKey = false then
        (errorResponse "OpenAI API key is not configured." 500, [])
      else
        let topic := jsTrim topicRaw
        match plan with
        | .throw e => (errorResponse (thrownMessage e) 500, [.plannerCall])
        | .ok content =>
          let queries := planQueries content topic
          let calls := AgentCall.plannerCall :: queries.map AgentCall.searchCall
          match retrieverAgent beh queries topic with
          | .error e => (errorResponse (thrownMessage e) 500, calls)
          | .ok _researchData =>
            match writerAgent write with
            | .error e =>
              (errorResponse (thrownMessage e) 500, calls ++ [.writerCall])
            | .ok draft =>
              if draft = "" then
                (errorResponse "Failed to generate article draft." 500,
                  calls ++ [.writerCall])
              else
                match editorAgent draft edit with
                | .error e =>
                  (errorResponse (thrownMessage e) 500,
                    calls ++ [.writerCall, .editorCall])
                | .ok article =>
                  (okResponse article, calls ++ [.writerCall, .editorCall])

/-- The tail of `POST` from the drafting step on (route.ts lines 182-194),
given the planned queries (for the call list): used to factor proofs about
requests that pass validation and retrieval. -/
def postAfterSearch (queries : List String) (write edit : LLMCall) :
    Response × List AgentCall :=
  let calls := AgentCall.plannerCall :: queries.map AgentCall.searchCall
  match writerAgent write with
  | .error e => (errorResponse (thrownMessage e) 500, calls ++ [.writerCall])
  | .ok draft =>
    if draft = "" then
      (errorResponse "Failed to generate article draft." 500,
        calls ++ [.writerCall])
    else
      match editorAgent draft edit with
      | .error e =>
        (errorResponse (thrownMessage e) 500,
          calls ++ [.writerCall, .editorCall])
      | .ok article =>
        (okResponse article, calls ++ [.writerCall, .editorCall])

/-- The fields of a search result that are present (truthy), rendered as the
lines the code composes: title, snippet text, and the `"Source: <link>"`
line.  This is the spec's description of a snippet's contents, to be
compared with `resultSnippet`. -/
def presentParts (r : SearchResult) : List String :=
  (if jsOr r.title "" = "" then [] else [jsOr r.title ""]) ++
  (if jsOr r.snippet "" = "" then [] else [jsOr r.snippet ""]) ++
  (if jsOr r.link "" = "" then [] else ["Source: " ++ jsOr r.link ""])

/-- A falsy nullable string `||`-defaults to the right operand. -/
theorem jsOr_of_falsy (o : Option String) (b : String)
    (h : jsTruthy o = false) : jsOr o b = b := by
  cases o with
  | none => rfl
  | some s =>
    simp only [jsTruthy, decide_eq_false_iff_not, not_not] at h
    simp [jsOr, h]

/-- `o || b` is non-empty whenever `b` is. -/
theorem jsOr_ne_of_ne (o : Option String) (b : String) (h : b ≠ "") :
    jsOr o b ≠ "" := by
  cases o with
  | none => simpa [jsOr] using h
  | some s =>
    by_cases hs : s = ""
    · simp [jsOr, hs, h]
    · simp [jsOr, hs]

/-- A truthy nullable string `||`-defaulted over `""` is non-empty. -/
theorem jsOr_empty_ne_of_truthy (o : Option String) (h : jsTruthy o = true) :
    jsOr o "" ≠ "" := by
  cases o with
  | none => simp [jsTruthy] at h
  | some s =>
    simp only [jsTruthy, decide_eq_true_eq] at h
    simp [jsOr, h]

/-- A `"Source: <link>"` line is never the empty string. -/
theorem source_line_ne_empty (l : String) : ("Source: " ++ l) ≠ "" := by
  intro h
  have hlen := congrArg String.length h
  rw [String.length_append] at hlen
  have h8 : ("Source: " : String).length = 8 := rfl
  have h0 : ("" : String).length = 0 := rfl
  omega

/-- Joining with a newline separator never yields the empty string when the
list has at least two entries. -/
theorem append_newline_ne_empty (x y : String) : (x ++ "\n" ++ y) ≠ "" := by
  intro h
  have hlen := congrArg String.length h
  rw [String.length_append, String.length_append] at hlen
  have h1 : ("\n" : String).length = 1 := rfl
  have h0 : ("" : String).length = 0 := rfl
  omega

/-- Joining a list headed by a non-empty string is non-empty. -/
theorem joinLines_ne_empty (x : String) (xs : List String) (hx : x ≠ "") :
    joinLines (x :: xs) ≠ "" := by
  cases xs with
  | nil => simpa [joinLines] using hx
  | cons y ys => simpa [joinLines] using append_newline_ne_empty x _

/-- One iteration of the search loop never propagates an exception: the
`catch { continue }` absorbs any throw. -/
theorem fetchStep_ok (beh : String → SearchCallResult) (q : String) :
    ∃ s, Except.tryCatch (fetchQuery beh q) (fun _ => .ok []) = Except.ok s := by
  unfold fetchQuery
  cases beh q with
  | throw e => exact ⟨[], rfl⟩
  | httpError => exact ⟨[], rfl⟩
  | ok orl => exact ⟨_, rfl⟩

/-- The whole search loop never propagates an exception. -/
theorem searchLoop_ok (beh : String → SearchCallResult) :
    ∀ qs acc : List String, ∃ l, searchLoop beh acc qs = Except.ok l := by
  intro qs
  induction qs with
  | nil => exact fun acc => ⟨acc, rfl⟩
  | cons q rest ih =>
    intro acc
    obtain ⟨s, hs⟩ := fetchStep_ok beh q
    obtain ⟨l, hl⟩ := ih (acc ++ s)
    refine ⟨l, ?_⟩
    simp only [searchLoop]
    rw [hs]
    exact hl

/-- When every search call fails with a non-ok status, the loop accumulates
nothing. -/
theorem searchLoop_all_fail (beh : String → SearchCallResult)
    (hbeh : ∀ q, beh q = .httpError) :
    ∀ qs acc : List String, searchLoop beh acc qs = Except.ok acc := by
  intro qs
  induction qs with
  | nil => exact fun acc => rfl
  | cons q rest ih =>
    intro acc
    simp only [searchLoop]
    have : Except.tryCatch (fetchQuery beh q) (fun _ => .ok []) =
        Except.ok ([] : List String) := by
      unfold fetchQuery
      rw [hbeh q]
      rfl
    rw [this]
    simpa using ih acc

/-- C1: For every sequence of planned queries and every behavior of the
search collaborator — including every per-query call throwing, returning a
non-ok status, or a malformed body — the retrieval half of `searcherAgent`
raises no exception (its `Except` result is `.ok`) and returns a non-empty
list of snippets, substituting the single synthetic no-results snippet when
the accumulated list is empty. -/
theorem retriever_no_exception_nonempty (beh : String → SearchCallResult)
    (queries : List String) (topic : String) :
    ∃ acc, searchLoop beh [] queries = Except.ok acc ∧
      retrieverAgent beh queries topic =
        Except.ok (if acc.length = 0 then [noResultsSnippet topic] else acc) ∧
      (if acc.length = 0 then [noResultsSnippet topic] else acc) ≠ [] := by
  obtain ⟨acc, hacc⟩ := searchLoop_ok beh queries []
  refine ⟨acc, hacc, ?_, ?_⟩
  · unfold retrieverAgent
    rw [hacc]
    by_cases h : acc.length = 0 <;> simp [h]
  · by_cases h : acc.length = 0 <;> simp [h]
    exact fun hnil => h (by simp [hnil])

/-- C2 counterexample: with the valid topic `"ai"` and the generative call
returning the truthy whitespace-only text `" "`, the query planner produces
zero queries — violating the claimed lower bound of 1 (the `|| topic`
fallback fires only on falsy text, and trimming then drops the sole line). -/
theorem planQueries_zero_on_whitespace_content :
    planQueries (some " ") "ai" = [] ∧
    ¬1 ≤ (planQueries (some " ") "ai").length := by
  decide

/-- C2 (amended): for every topic and every generative-call text, the query
planner produces at most 3 queries (possibly zero, when the call returns
whitespace-only text), each non-empty and each the trim of a line of the
planner text; and when the generative call yields nothing usable (null or
the empty string), the planner's output is computed from the trimmed topic
itself, exactly as if no text had been returned. -/
theorem planQueries_amended (content : Option String) (topic : String) :
    (planQueries content topic).length ≤ 3 ∧
    (∀ q ∈ planQueries content topic,
      q ≠ "" ∧ ∃ line ∈ jsSplitLines (jsOr content topic), q = jsTrim line) ∧
    (jsTruthy content = false →
      planQueries content topic = planQueries none topic) := by
  refine ⟨?_, ?_, ?_⟩
  · unfold planQueries
    exact List.length_take_le 3 _
  · intro q hq
    have hq' := List.mem_of_mem_take hq
    rw [List.mem_filter] at hq'
    obtain ⟨hmem, hne⟩ := hq'
    rw [List.mem_map] at hmem
    obtain ⟨line, hline, rfl⟩ := hmem
    exact ⟨by simpa using hne, line, hline, rfl⟩
  · intro h
    have heq : jsOr content topic = topic := by
      cases content with
      | none => rfl
      | some s =>
        simp only [jsTruthy, decide_eq_false_iff_not, not_not] at h
        simp [jsOr, h]
    unfold planQueries
    rw [heq]
    rfl

/-- C2 amended witness: at `content = some ""` (falsy) and topic `"ai"`, the
fallback clause applies. -/
theorem planQueries_amended_witness :
    planQueries (some "") "ai" = planQueries none "ai" :=
  (planQueries_amended (some "") "ai").2.2 (by decide)

/-- C3: For every request whose topic field is absent, not a string, or
empty after trimming, `POST` returns the client-error response (status 400)
and makes no collaborator call (the call list is empty). -/
theorem POST_invalid_topic (tf : TopicField) (key : Option String)
    (plan : LLMCall) (beh : String → SearchCallResult) (write edit : LLMCall)
    (h : validTopic tf = none) :
    POST (.ok tf) key plan beh write edit =
      (errorResponse "A valid topic is required." 400, []) := by
  simp only [POST, h]

/-- C3 witness: a request whose body has no `topic` field. -/
theorem POST_invalid_topic_witness :
    POST (.ok .absent) (some "k") (.ok none) (fun _ => .httpError) (.ok none)
      (.ok none) = (errorResponse "A valid topic is required." 400, []) :=
  POST_invalid_topic .absent (some "k") (.ok none) (fun _ => .httpError)
    (.ok none) (.ok none) rfl

/-- C9: For every request whose body fails to parse as JSON (`request.json()`
throws), `POST` returns the outer-catch response — status 500, carrying the
parse exception's message via `thrownMessage`, never the 400 validation
response — and makes no collaborator call: parsing happens inside the outer
`try` before topic validation. -/
theorem POST_body_parse_error (e : Thrown) (key : Option String)
    (plan : LLMCall) (beh : String → SearchCallResult) (write edit : LLMCall) :
    POST (.error e) key plan beh write edit =
      (errorResponse (thrownMessage e) 500, []) := rfl

example : planQueries (some " ") "ai" = [] := by decide
example : planQueries none "ai" = ["ai"] := by decide
example : planQueries (some "a\nb\nc\nd") "t" = ["a", "b", "c"] := by decide
example : resultSnippet ⟨none, none, none⟩ = none := by decide
example : resultSnippet ⟨some "T", none, some "L"⟩ = some "T\nSource: L" := by
  decide
example : validTopic (.str "  ") = none := by decide
example : validTopic (.str " ai ") = some " ai " := by decide

/-- Retrieval always succeeds (helper shared by the orchestrator proofs). -/
theorem retrieverAgent_ok (beh : String → SearchCallResult)
    (queries : List String) (topic : String) :
    ∃ l, retrieverAgent beh queries topic = Except.ok l := by
  obtain ⟨acc, hacc⟩ := searchLoop_ok beh queries []
  unfold retrieverAgent
  rw [hacc]
  by_cases h : acc.length = 0
  · exact ⟨[noResultsSnippet topic], by simp [h]⟩
  · exact ⟨acc, by simp [h]⟩

/-- On a request that passes validation, with a configured key and a
non-throwing planning call, `POST` reduces to its post-retrieval tail. -/
theorem POST_after_search (tf : TopicField) (t : String) (key : Option String)
    (c : Option String) (beh : String → SearchCallResult) (write edit : LLMCall)
    (htf : validTopic tf = some t) (hkey : jsTruthy key = true) :
    POST (.ok tf) key (.ok c) beh write edit =
      postAfterSearch (planQueries c (jsTrim t)) write edit := by
  obtain ⟨l, hl⟩ := retrieverAgent_ok beh (planQueries c (jsTrim t)) (jsTrim t)
  simp [POST, htf, hkey, hl, postAfterSearch]

/-- C4: whenever the drafting call succeeds but yields falsy content (so the
drafter returns the empty string), `POST` responds with the
generation-failure error at status 500, and no editor call is made. -/
theorem POST_empty_draft (tf : TopicField) (t : String) (key : Option String)
    (c : Option String) (beh : String → SearchCallResult) (w : Option String)
    (edit : LLMCall) (htf : validTopic tf = some t)
    (hkey : jsTruthy key = true) (hw : jsOr w "" = "") :
    (POST (.ok tf) key (.ok c) beh (.ok w) edit).1 =
      errorResponse "Failed to generate article draft." 500 ∧
    AgentCall.editorCall ∉ (POST (.ok tf) key (.ok c) beh (.ok w) edit).2 := by
  rw [POST_after_search tf t key c beh (.ok w) edit htf hkey]
  simp only [postAfterSearch, writerAgent, hw]
  constructor
  · rfl
  · simp

/-- C4 witness: a valid topic, configured key, and a drafting call returning
null content. -/
theorem POST_empty_draft_witness :
    (POST (.ok (.str "ai")) (some "k") (.ok none) (fun _ => .httpError)
        (.ok none) (.ok none)).1 =
      errorResponse "Failed to generate article draft." 500 ∧
    AgentCall.editorCall ∉ (POST (.ok (.str "ai")) (some "k") (.ok none)
        (fun _ => .httpError) (.ok none) (.ok none)).2 :=
  POST_empty_draft (.str "ai") "ai" (some "k") none (fun _ => .httpError)
    none (.ok none) (by decide) (by decide) (by decide)

/-- C5: for every non-empty draft, if the editing call succeeds but yields
falsy content, `editorAgent` returns the draft unchanged and `POST`'s
successful response carries that draft verbatim as the article. -/
theorem POST_refiner_fallback (tf : TopicField) (t : String)
    (key : Option String) (c : Option String)
    (beh : String → SearchCallResult) (w e : Option String)
    (htf : validTopic tf = some t) (hkey : jsTruthy key = true)
    (hw : jsOr w "" ≠ "") (he : jsTruthy e = false) :
    editorAgent (jsOr w "") (.ok e) = Except.ok (jsOr w "") ∧
    (POST (.ok tf) key (.ok c) beh (.ok w) (.ok e)).1 =
      okResponse (jsOr w "") := by
  have hed : editorAgent (jsOr w "") (.ok e) = Except.ok (jsOr w "") := by
    simp only [editorAgent, jsOr_of_falsy e _ he]
  refine ⟨hed, ?_⟩
  rw [POST_after_search tf t key c beh (.ok w) (.ok e) htf hkey]
  simp only [postAfterSearch, writerAgent, if_neg hw, hed]

/-- C5 witness: drafting returns `"draft"`, editing returns null content. -/
theorem POST_refiner_fallback_witness :
    editorAgent "draft" (.ok none) = Except.ok "draft" ∧
    (POST (.ok (.str "ai")) (some "k") (.ok none) (fun _ => .httpError)
        (.ok (some "draft")) (.ok none)).1 = okResponse "draft" :=
  POST_refiner_fallback (.str "ai") "ai" (some "k") none (fun _ => .httpError)
    (some "draft") none (by decide) (by decide) (by decide) (by decide)

/-- C6: the snippet built from a search result is exactly the newline-join
of its present fields (title, snippet text, `"Source: <link>"` line), with
missing fields omitted; a result with all three fields missing contributes
no snippet; and per query only the first 3 results are considered, so at
most 3 snippets arise from one query. -/
theorem snippet_composition (r : SearchResult) (results : List SearchResult) :
    resultSnippet r = (if presentParts r = [] then none
      else some (joinLines (presentParts r))) ∧
    (jsOr r.title "" = "" ∧ jsOr r.snippet "" = "" ∧ jsOr r.link "" = "" →
      resultSnippet r = none) ∧
    extractSnippets results = extractSnippets (results.take 3) ∧
    (extractSnippets results).length ≤ 3 := by
  have hmain : resultSnippet r = (if presentParts r = [] then none
      else some (joinLines (presentParts r))) := by
    unfold resultSnippet presentParts
    cases hl : jsTruthy r.link with
    | false =>
      have hl' : jsOr r.link "" = "" := jsOr_of_falsy r.link "" hl
      by_cases ht : jsOr r.title "" = "" <;>
        by_cases hs : jsOr r.snippet "" = "" <;>
          simp [ht, hs, hl', joinLines, joinLines_ne_empty,
            append_newline_ne_empty]
    | true =>
      have hl' : jsOr r.link "" ≠ "" := jsOr_empty_ne_of_truthy r.link hl
      by_cases ht : jsOr r.title "" = "" <;>
        by_cases hs : jsOr r.snippet "" = "" <;>
          simp [ht, hs, hl, hl', joinLines, joinLines_ne_empty,
            append_newline_ne_empty, source_line_ne_empty]
  refine ⟨hmain, ?_, ?_, ?_⟩
  · rintro ⟨ht, hs, hlk⟩
    rw [hmain]
    simp [presentParts, ht, hs, hlk]
  · unfold extractSnippets
    rw [List.take_take]
    norm_num
  · unfold extractSnippets
    calc (List.filterMap resultSnippet (results.take 3)).length
        ≤ (results.take 3).length := List.length_filterMap_le _ _
      _ ≤ 3 := List.length_take_le 3 _

/-- C6 witness: a result with all fields missing contributes no snippet. -/
theorem snippet_composition_witness :
    resultSnippet ⟨none, none, none⟩ = none :=
  (snippet_composition ⟨none, none, none⟩ []).2.1 ⟨rfl, rfl, rfl⟩

/-- C7: every exception thrown after validation — body parsing, the
planning, drafting, or editing call — is caught once at the outer boundary
and mapped to a status-500 failure whose message is the exception's own
message when it is an `Error`, and the generic internal-error message
otherwise. -/
theorem POST_outer_catch :
    (∀ (e : Thrown) (key : Option String) (plan : LLMCall)
       (beh : String → SearchCallResult) (write edit : LLMCall),
       POST (.error e) key plan beh write edit =
         (errorResponse (thrownMessage e) 500, [])) ∧
    (∀ m : String, thrownMessage (.err m) = m) ∧
    thrownMessage .nonError = "Internal server error" ∧
    (∀ (tf : TopicField) (t : String) (key : Option String)
       (beh : String → SearchCallResult) (write edit : LLMCall) (e : Thrown),
       validTopic tf = some t → jsTruthy key = true →
       (POST (.ok tf) key (.throw e) beh write edit).1 =
         errorResponse (thrownMessage e) 500) ∧
    (∀ (tf : TopicField) (t : String) (key c : Option String)
       (beh : String → SearchCallResult) (edit : LLMCall) (e : Thrown),
       validTopic tf = some t → jsTruthy key = true →
       (POST (.ok tf) key (.ok c) beh (.throw e) edit).1 =
         errorResponse (thrownMessage e) 500) ∧
    (∀ (tf : TopicField) (t : String) (key c : Option String)
       (beh : String → SearchCallResult) (w : Option String) (e : Thrown),
       validTopic tf = some t → jsTruthy key = true → jsOr w "" ≠ "" →
       (POST (.ok tf) key (.ok c) beh (.ok w) (.throw e)).1 =
         errorResponse (thrownMessage e) 500) := by
  refine ⟨fun e key plan beh write edit => rfl, fun m => rfl, rfl, ?_, ?_, ?_⟩
  · intro tf t key beh write edit e htf hkey
    simp [POST, htf, hkey]
  · intro tf t key c beh edit e htf hkey
    rw [POST_after_search tf t key c beh (.throw e) edit htf hkey]
    rfl
  · intro tf t key c beh w e htf hkey hw
    rw [POST_after_search tf t key c beh (.ok w) (.throw e) htf hkey]
    simp only [postAfterSearch, writerAgent, if_neg hw, editorAgent]

/-- C7 witness: planning throws an `Error` with message `"boom"`; drafting
throws a non-`Error` value; editing throws an `Error` with message `"x"`. -/
theorem POST_outer_catch_witness :
    (POST (.ok (.str "ai")) (some "k") (.throw (.err "boom"))
        (fun _ => .httpError) (.ok none) (.ok none)).1 =
      errorResponse "boom" 500 ∧
    (POST (.ok (.str "ai")) (some "k") (.ok none) (fun _ => .httpError)
        (.throw .nonError) (.ok none)).1 =
      errorResponse "Internal server error" 500 ∧
    (POST (.ok (.str "ai")) (some "k") (.ok none) (fun _ => .httpError)
        (.ok (some "d")) (.throw (.err "x"))).1 =
      errorResponse "x" 500 :=
  ⟨POST_outer_catch.2.2.2.1 (.str "ai") "ai" (some "k") (fun _ => .httpError)
      (.ok none) (.ok none) (.err "boom") (by decide) (by decide),
   POST_outer_catch.2.2.2.2.1 (.str "ai") "ai" (some "k") none
      (fun _ => .httpError) (.ok none) .nonError (by decide) (by decide),
   POST_outer_catch.2.2.2.2.2 (.str "ai") "ai" (some "k") none
      (fun _ => .httpError) (some "d") (.err "x") (by decide) (by decide)
      (by decide)⟩

/-- C8: every return path of `POST` produces a body with exactly one of the
`article` / `error` fields present, never both and never neither. -/
theorem POST_exactly_one_field (body : Except Thrown TopicField)
    (key : Option String) (plan : LLMCall) (beh : String → SearchCallResult)
    (write edit : LLMCall) :
    ((POST body key plan beh write edit).1.body.article = none ∧
      (POST body key plan beh write edit).1.body.error ≠ none) ∨
    ((POST body key plan beh write edit).1.body.article ≠ none ∧
      (POST body key plan beh write edit).1.body.error = none) := by
  rcases body with e | tf
  · left; simp [POST, errorResponse]
  · rcases htf : validTopic tf with _ | t
    · left; simp [POST, htf, errorResponse]
    · cases hkey : jsTruthy key with
      | false => left; simp [POST, htf, hkey, errorResponse]
      | true =>
        rcases plan with e | c
        · left; simp [POST, htf, hkey, errorResponse]
        · obtain ⟨l, hl⟩ :=
            retrieverAgent_ok beh (planQueries c (jsTrim t)) (jsTrim t)
          rcases write with e | w
          · left
            simp [POST, htf, hkey, hl, writerAgent, errorResponse]
          · by_cases hw : jsOr w "" = ""
            · left
              simp [POST, htf, hkey, hl, writerAgent, hw, errorResponse]
            · rcases edit with e | ec
              · left
                simp [POST, htf, hkey, hl, writerAgent, hw, editorAgent,
                  errorResponse]
              · right
                simp [POST, htf, hkey, hl, writerAgent, hw, editorAgent,
                  okResponse]

/-- C10: an absent search credential is replaced by the empty string; a
behavior in which every search call fails (as with an invalid key) makes
the retriever return exactly the synthetic fallback snippet; and under any
such behavior a request with a valid topic, a configured generative key,
and a drafting call producing truthy text still succeeds with a non-empty
article. -/
theorem POST_missing_serp_key :
    getSerpApiKey none = "" ∧
    (∀ (beh : String → SearchCallResult) (c : Option String) (topic : String),
       (∀ q, beh q = .httpError) →
       retrieverAgent beh (planQueries c topic) topic =
         Except.ok [noResultsSnippet topic]) ∧
    (∀ (tf : TopicField) (t : String) (key c : Option String)
       (beh : String → SearchCallResult) (w e : Option String),
       validTopic tf = some t → jsTruthy key = true →
       (∀ q, beh q = .httpError) → jsOr w "" ≠ "" →
       ∃ article, (POST (.ok tf) key (.ok c) beh (.ok w) (.ok e)).1 =
         okResponse article ∧ article ≠ "") := by
  refine ⟨rfl, ?_, ?_⟩
  · intro beh c topic hbeh
    unfold retrieverAgent
    rw [searchLoop_all_fail beh hbeh _ []]
    rfl
  · intro tf t key c beh w e htf hkey hbeh hw
    refine ⟨jsOr e (jsOr w ""), ?_, jsOr_ne_of_ne e _ hw⟩
    rw [POST_after_search tf t key c beh (.ok w) (.ok e) htf hkey]
    simp only [postAfterSearch, writerAgent, if_neg hw, editorAgent]

/-- C10 witness: no search credential behavior (every call rejected), valid
topic, drafting returns `"draft"`. -/
theorem POST_missing_serp_key_witness :
    ∃ article, (POST (.ok (.str "ai")) (some "k") (.ok none)
        (fun _ => .httpError) (.ok (some "draft")) (.ok none)).1 =
      okResponse article ∧ article ≠ "" :=
  POST_missing_serp_key.2.2 (.str "ai") "ai" (some "k") none
    (fun _ => .httpError) (some "draft") none (by decide) (by decide)
    (fun _ => rfl) (by decide)
